import Mathlib

/-!
Shallow embedding of the resident-record validation and persistence core of
the Embajada application (`app/main.py` and `app/database.py`), together with
proofs of the specified properties.

Strings are modelled as Lean `String`s (sequences of Unicode characters,
matching Python `str` code points), dates as integer day numbers (the only
operations the code performs on dates are comparison and day-difference),
and the `residentes` table as a list of rows plus an auto-increment counter.
-/

namespace Embajada

/-! ### Python string primitives used by the validators -/

/-- Whitespace as recognised by Python `str.strip()` and the regex class
`BACKSLASH-s` (the ASCII whitespace characters: space, tab, newline,
carriage return, vertical tab, form feed). -/
def isPyWhitespace (c : Char) : Bool :=
  c == ' ' || c == '\t' || c == '\n' || c == '\r' ||
  c == Char.ofNat 11 || c == Char.ofNat 12

/-- `str.strip()` on a character list: drop leading and trailing whitespace. -/
def pyStripList (cs : List Char) : List Char :=
  ((cs.dropWhile isPyWhitespace).reverse.dropWhile isPyWhitespace).reverse

/-- Python `v.strip()`. -/
def pyStrip (s : String) : String :=
  String.mk (pyStripList s.toList)

/-- Uppercase map covering the ASCII letters and the Spanish diacritics the
application's regexes admit; other characters are returned unchanged. -/
def pyToUpper (c : Char) : Char :=
  if c == 'á' then 'Á' else if c == 'é' then 'É' else if c == 'í' then 'Í'
  else if c == 'ó' then 'Ó' else if c == 'ú' then 'Ú' else if c == 'ñ' then 'Ñ'
  else if c == 'ü' then 'Ü' else c.toUpper

/-- Lowercase map, inverse direction of `pyToUpper` on the same alphabet. -/
def pyToLower (c : Char) : Char :=
  if c == 'Á' then 'á' else if c == 'É' then 'é' else if c == 'Í' then 'í'
  else if c == 'Ó' then 'ó' else if c == 'Ú' then 'ú' else if c == 'Ñ' then 'ñ'
  else if c == 'Ü' then 'ü' else c.toLower

/-- A cased character for the purposes of Python `str.title()`, over the
alphabet the application handles (ASCII letters plus Spanish diacritics). -/
def isCasedChar (c : Char) : Bool :=
  c.isAlpha ||
  ['á', 'é', 'í', 'ó', 'ú', 'ñ', 'ü', 'Á', 'É', 'Í', 'Ó', 'Ú', 'Ñ', 'Ü'].contains c

/-- Python `str.title()` on a character list: a cased character is uppercased
when the previous character is uncased (or at the start of the string) and
lowercased otherwise; uncased characters pass through and reset the state.
The boolean argument records whether the previous character was cased. -/
def pyTitleList : Bool → List Char → List Char
  | _, [] => []
  | prevCased, c :: cs =>
    if isCasedChar c then
      (if prevCased then pyToLower c else pyToUpper c) :: pyTitleList true cs
    else
      c :: pyTitleList false cs

/-- Python `v.title()`. -/
def pyTitle (s : String) : String :=
  String.mk (pyTitleList false s.toList)

/-- Python `v.upper()`. -/
def pyUpper (s : String) : String :=
  String.mk (s.toList.map pyToUpper)

/-! ### Field validators (`app/main.py`, class `ResidenteBase`) -/

/-- A letter of the regex class `[a-zA-ZáéíóúÁÉÍÓÚñÑüÜ]`. -/
def letraEs (c : Char) : Bool :=
  c.isAlpha ||
  ['á', 'é', 'í', 'ó', 'ú', 'Á', 'É', 'Í', 'Ó', 'Ú', 'ñ', 'Ñ', 'ü', 'Ü'].contains c

/-- Character class of the `validar_nombre_apellido` regex
`[a-zA-ZáéíóúÁÉÍÓÚñÑüÜ]` together with the whitespace class. -/
def nombreChar (c : Char) : Bool :=
  letraEs c || isPyWhitespace c

/-- `validar_nombre_apellido` from `app/main.py`: reject blank, trim,
length 2 to 100, letters and whitespace only, title-case the result. -/
def validar_nombre_apellido (v : String) : Except String String :=
  if pyStrip v = "" then .error "El campo no puede estar vacío"
  else
    let w := pyStrip v
    if w.length < 2 then .error "Debe tener al menos 2 caracteres"
    else if w.length > 100 then .error "No puede exceder 100 caracteres"
    else if !(w.toList.all nombreChar) then .error "Solo se permiten letras y espacios"
    else .ok (pyTitle w)

/-- `validar_fecha_nacimiento` from `app/main.py`.  `today` is the caller
clock `date.today()`; dates are day numbers, so `(today - v).days` is
`today - v`, and Python `//` is floor division `Int.fdiv`. -/
def validar_fecha_nacimiento (today v : Int) : Except String Int :=
  if v > today then .error "La fecha de nacimiento no puede ser futura"
  else if (today - v).fdiv 365 > 150 then .error "La fecha de nacimiento no es válida"
  else .ok v

/-- Character class of the `validar_pasaporte` regex `[A-Z0-9]` plus hyphen. -/
def pasaporteChar (c : Char) : Bool :=
  ('A' ≤ c && c ≤ 'Z') || c.isDigit || c == '-'

/-- `validar_pasaporte` from `app/main.py`: reject blank, trim and uppercase,
length 6 to 50, uppercase alphanumerics and hyphens only. -/
def validar_pasaporte (v : String) : Except String String :=
  if pyStrip v = "" then .error "El pasaporte es obligatorio"
  else
    let w := pyUpper (pyStrip v)
    if w.length < 6 then .error "El pasaporte debe tener al menos 6 caracteres"
    else if w.length > 50 then .error "El pasaporte no puede exceder 50 caracteres"
    else if !(w.toList.all pasaporteChar) then
      .error "El pasaporte solo puede contener letras, números y guiones"
    else .ok w

/-- Characters removed by `re.sub` in `validar_telefono`: whitespace,
hyphens and parentheses. -/
def phoneStripChar (c : Char) : Bool :=
  isPyWhitespace c || c == '-' || c == '(' || c == ')'

/-- Seven to fifteen decimal digits. -/
def phoneDigits (cs : List Char) : Bool :=
  cs.all Char.isDigit && decide (7 ≤ cs.length) && decide (cs.length ≤ 15)

/-- The regex of `validar_telefono`: an optional leading plus sign followed
by 7 to 15 digits, anchored at both ends. -/
def phoneMatch : List Char → Bool
  | '+' :: rest => phoneDigits rest
  | cs => phoneDigits cs

/-- `validar_telefono` from `app/main.py`: absent or blank normalizes to
absent; otherwise the trimmed value is cleaned of whitespace, hyphens and
parentheses for the check only, and the trimmed value is returned. -/
def validar_telefono (v : Option String) : Except String (Option String) :=
  match v with
  | none => .ok none
  | some u =>
    if pyStrip u = "" then .ok none
    else
      let w := pyStrip u
      let telefono_limpio := w.toList.filter (fun c => !(phoneStripChar c))
      if !(phoneMatch telefono_limpio) then
        .error "Formato de teléfono inválido. Debe contener entre 7 y 15 dígitos"
      else .ok (some w)

/-- `validar_direccion` from `app/main.py`: absent or blank normalizes to
absent; otherwise trim and check the 255-character limit. -/
def validar_direccion (v : Option String) : Except String (Option String) :=
  match v with
  | none => .ok none
  | some u =>
    if pyStrip u = "" then .ok none
    else
      let w := pyStrip u
      if w.length > 255 then .error "La dirección no puede exceder 255 caracteres"
      else .ok (some w)

/-- Character class of the `validar_ocupacion` regex: letters, whitespace,
periods and hyphens. -/
def ocupacionChar (c : Char) : Bool :=
  letraEs c || isPyWhitespace c || c == '.' || c == '-'

/-- `validar_ocupacion` from `app/main.py`: absent or blank normalizes to
absent; otherwise trim, check the 100-character limit and the character
class, and title-case the result. -/
def validar_ocupacion (v : Option String) : Except String (Option String) :=
  match v with
  | none => .ok none
  | some u =>
    if pyStrip u = "" then .ok none
    else
      let w := pyStrip u
      if w.length > 100 then .error "La ocupación no puede exceder 100 caracteres"
      else if !(w.toList.all ocupacionChar) then
        .error "La ocupación solo puede contener letras, espacios, puntos y guiones"
      else .ok (some (pyTitle w))

/-- The list `estados_validos` from `validar_estado_civil`. -/
def estados_validos : List String :=
  ["Soltero", "Soltera", "Casado", "Casada", "Divorciado", "Divorciada",
   "Viudo", "Viuda", "Unión Libre"]

/-- `validar_estado_civil` from `app/main.py`: absent or blank normalizes to
absent; otherwise the trimmed, title-cased value must be one of
`estados_validos`, and any other value is rejected with the full list in
the message. -/
def validar_estado_civil (v : Option String) : Except String (Option String) :=
  match v with
  | none => .ok none
  | some u =>
    if pyStrip u = "" then .ok none
    else
      let t := pyTitle (pyStrip u)
      if t ∈ estados_validos then .ok (some t)
      else .error ("Estado civil inválido. Opciones válidas: " ++
                   String.intercalate ", " estados_validos)

/-- A character admitted inside each part of the loose email pattern: not
the at sign and not whitespace. -/
def emailAtomChar (c : Char) : Bool :=
  !(c == '@' || isPyWhitespace c)

/-- Full-match test for the loose email regex: one or more non-at,
non-whitespace characters, an at sign, one or more such characters, with a
dot strictly inside the part after the at sign. -/
def emailMatch (s : String) : Bool :=
  let cs := s.toList
  let loc := cs.takeWhile (fun c => !(c == '@'))
  match cs.dropWhile (fun c => !(c == '@')) with
  | '@' :: dom =>
      !loc.isEmpty && loc.all emailAtomChar && dom.all emailAtomChar &&
        (dom.drop 1).dropLast.contains '.'
  | _ => false

/-- Modelled from the spec: the email validator of the Validator component
(the source under `src/` only declares the email field against the framework
type `EmailStr`; the custom check the spec describes lives in a handler
variant that is not part of `src/`).  Reject empty input, reject input
longer than 150 characters, and otherwise accept exactly the strings
matching the loose local-at-domain-dot-tld pattern, returning the input
unchanged. -/
def validar_email (v : String) : Except String String :=
  if v = "" then .error "El email es obligatorio"
  else if v.length > 150 then .error "El email no puede exceder 150 caracteres"
  else if !(emailMatch v) then .error "Formato de email inválido"
  else .ok v

/-! ### Data model, whole-record validation and the repository -/

/-- The non-id fields of a resident record, both as raw form input and as
the Validator's normalized payload (`ResidenteBase` in `app/main.py`). -/
structure ResidenteFields where
  nombre : String
  apellido : String
  fecha_nacimiento : Int
  pasaporte : String
  email : String
  telefono : Option String
  direccion : Option String
  ocupacion : Option String
  estado_civil : Option String
deriving DecidableEq

/-- The error entries a failing field contributes to the aggregate
validation error: one field-name and message pair on failure, nothing on
success (pydantic `e.errors()` yields one entry per failed field). -/
def errList (name : String) : Except String α → List (String × String)
  | .error m => [(name, m)]
  | .ok _ => []

/-- All field errors of a record, in field-declaration order, as pydantic
aggregates them across fields when constructing `ResidenteCreate` or
`ResidenteUpdate`. -/
def erroresResidente (today : Int) (r : ResidenteFields) : List (String × String) :=
  errList "nombre" (validar_nombre_apellido r.nombre) ++
  errList "apellido" (validar_nombre_apellido r.apellido) ++
  errList "fecha_nacimiento" (validar_fecha_nacimiento today r.fecha_nacimiento) ++
  errList "pasaporte" (validar_pasaporte r.pasaporte) ++
  errList "email" (validar_email r.email) ++
  errList "telefono" (validar_telefono r.telefono) ++
  errList "direccion" (validar_direccion r.direccion) ++
  errList "ocupacion" (validar_ocupacion r.ocupacion) ++
  errList "estado_civil" (validar_estado_civil r.estado_civil)

/-- The all-fields-valid path of record validation: the normalized payload
when every field validator succeeds. -/
def validarTodos (today : Int) (r : ResidenteFields) : Option ResidenteFields := do
  let n ← (validar_nombre_apellido r.nombre).toOption
  let a ← (validar_nombre_apellido r.apellido).toOption
  let f ← (validar_fecha_nacimiento today r.fecha_nacimiento).toOption
  let p ← (validar_pasaporte r.pasaporte).toOption
  let e ← (validar_email r.email).toOption
  let t ← (validar_telefono r.telefono).toOption
  let d ← (validar_direccion r.direccion).toOption
  let o ← (validar_ocupacion r.ocupacion).toOption
  let c ← (validar_estado_civil r.estado_civil).toOption
  pure ⟨n, a, f, p, e, t, d, o, c⟩

/-- Whole-record validation: pydantic model construction runs every field
validator, and raises a `ValidationError` carrying the aggregated per-field
errors when any of them fails. -/
def validarResidente (today : Int) (r : ResidenteFields) :
    Except (List (String × String)) ResidenteFields :=
  match validarTodos today r with
  | some v => .ok v
  | none => .error (erroresResidente today r)

/-- A row of the `residentes` table. -/
structure Row where
  id : Nat
  fields : ResidenteFields
deriving DecidableEq

/-- The state of the `residentes` table: the rows in storage order and the
auto-increment counter for the next assigned id. -/
structure DBState where
  nextId : Nat
  rows : List Row
deriving DecidableEq

/-- `insert_residente` from `app/database.py`: the INSERT statement appends
a row whose id is assigned by the auto-increment counter, and the function
returns `cur.lastrowid or 0`.  The driver-reported `cur.lastrowid`
(an optional integer, external to the repository code) is an explicit
parameter; Python `x or 0` yields `0` when `x` is `None` or `0`. -/
def insert_residente (db : DBState) (lastrowid : Option Nat)
    (f : ResidenteFields) : Nat × DBState :=
  let returned := match lastrowid with
    | none => 0
    | some n => if n = 0 then 0 else n
  (returned, { nextId := db.nextId + 1, rows := db.rows ++ [⟨db.nextId, f⟩] })

/-- `fetch_residente_by_id` from `app/database.py`: SELECT by id, first
matching row or absence. -/
def fetch_residente_by_id (db : DBState) (rid : Nat) : Option Row :=
  db.rows.find? (fun r => r.id == rid)

/-- `delete_residente` from `app/database.py`: DELETE by id; the returned
boolean is `cur.rowcount > 0`, the number of deleted rows.  The function
returns normally in every case (no fault is raised for a missing id). -/
def delete_residente (db : DBState) (rid : Nat) : Bool × DBState :=
  let matched := db.rows.filter (fun r => r.id == rid)
  (decide (matched.length > 0), { db with rows := db.rows.filter (fun r => !(r.id == rid)) })

/-- `update_residente` from `app/database.py`: UPDATE of all non-id fields
for the row matching id; the returned boolean is `cur.rowcount > 0`.  When
no row matches, the count is zero under either rowcount convention
(matched rows or changed rows) and the table is left unchanged. -/
def update_residente (db : DBState) (rid : Nat) (f : ResidenteFields) : Bool × DBState :=
  let matched := db.rows.filter (fun r => r.id == rid)
  (decide (matched.length > 0),
   { db with rows := db.rows.map (fun r => if r.id == rid then ⟨r.id, f⟩ else r) })

/-! ### Request handlers (`app/main.py`) -/

/-- The responses the create and edit handlers can produce. -/
inductive Response where
  | redirect (url : String) (status : Nat)
  | formWithErrors (status : Nat) (errores : List (String × String))
  | notFound
deriving DecidableEq

/-- The handlers' `x if x else None` pre-mapping of optional form fields:
an empty string (falsy in Python) is turned into `None` before the pydantic
model is constructed. -/
def formOpt : Option String → Option String
  | some s => if s = "" then none else some s
  | none => none

/-- The optional-field pre-mapping applied by both POST handlers before
validation. -/
def applyFormOpt (form : ResidenteFields) : ResidenteFields :=
  { form with
    telefono := formOpt form.telefono
    direccion := formOpt form.direccion
    ocupacion := formOpt form.ocupacion
    estado_civil := formOpt form.estado_civil }

/-- `post_nuevo_residente` from `app/main.py`: validate, and on success
insert and redirect to the listing; on a `ValidationError` re-render the
form with every field error (each pair is rendered as the field name,
capitalized, followed by the message) and status 422, without touching
storage. -/
def post_nuevo_residente (today : Int) (form : ResidenteFields)
    (lastrowid : Option Nat) (db : DBState) : Response × DBState :=
  match validarResidente today (applyFormOpt form) with
  | .ok v => (Response.redirect "/" 303, (insert_residente db lastrowid v).2)
  | .error errs => (Response.formWithErrors 422 errs, db)

/-- `post_editar_residente` from `app/main.py`: validate, and on success
update the row and redirect, or report not-found when no row matched; on a
`ValidationError` re-render the edit form with every field error and
status 422, without touching storage. -/
def post_editar_residente (today : Int) (rid : Nat) (form : ResidenteFields)
    (db : DBState) : Response × DBState :=
  match validarResidente today (applyFormOpt form) with
  | .ok v =>
    let r := update_residente db rid v
    if r.1 then (Response.redirect "/" 303, r.2) else (Response.notFound, r.2)
  | .error errs => (Response.formWithErrors 422 errs, db)

/-- Field-indexed rejection: the named field's validator fails on the given
record with the given message. -/
def fieldRejects (today : Int) (r : ResidenteFields) (name msg : String) : Prop :=
  (name = "nombre" ∧ validar_nombre_apellido r.nombre = .error msg) ∨
  (name = "apellido" ∧ validar_nombre_apellido r.apellido = .error msg) ∨
  (name = "fecha_nacimiento" ∧ validar_fecha_nacimiento today r.fecha_nacimiento = .error msg) ∨
  (name = "pasaporte" ∧ validar_pasaporte r.pasaporte = .error msg) ∨
  (name = "email" ∧ validar_email r.email = .error msg) ∨
  (name = "telefono" ∧ validar_telefono r.telefono = .error msg) ∨
  (name = "direccion" ∧ validar_direccion r.direccion = .error msg) ∨
  (name = "ocupacion" ∧ validar_ocupacion r.ocupacion = .error msg) ∨
  (name = "estado_civil" ∧ validar_estado_civil r.estado_civil = .error msg)

/-- Declarative reading of the phone pattern: either 7 to 15 decimal
digits, or a plus sign followed by 7 to 15 decimal digits. -/
def PhoneShape (cs : List Char) : Prop :=
  ((∀ c ∈ cs, c.isDigit) ∧ 7 ≤ cs.length ∧ cs.length ≤ 15) ∨
  (∃ ds, cs = '+' :: ds ∧ (∀ c ∈ ds, c.isDigit) ∧ 7 ≤ ds.length ∧ ds.length ≤ 15)

/-- Declarative reading of the loose email pattern of the spec: one or more
non-at non-whitespace characters, an at sign, one or more such characters,
a dot, one or more such characters. -/
def EmailShape (s : String) : Prop :=
  ∃ a b c : List Char,
    s.toList = a ++ '@' :: (b ++ '.' :: c) ∧
    a ≠ [] ∧ b ≠ [] ∧ c ≠ [] ∧
    (∀ x ∈ a, emailAtomChar x) ∧ (∀ x ∈ b, emailAtomChar x) ∧ (∀ x ∈ c, emailAtomChar x)

/-- A concrete fully valid resident payload, fixed by every field
validator, used by the witnesses below. -/
def ejemploForm : ResidenteFields :=
  ⟨"Ana", "Gil", 0, "ABC123", "a@b.c", none, none, none, none⟩

/-- A concrete payload whose only invalid field is the one-letter first
name, used by the witnesses below. -/
def formInvalido : ResidenteFields :=
  ⟨"a", "Gil", 0, "ABC123", "a@b.c", none, none, none, none⟩

/-! ### Helper lemmas -/

theorem pyStripList_sublist (cs : List Char) : List.Sublist (pyStripList cs) cs := by
  have h1 : List.Sublist (cs.dropWhile isPyWhitespace) cs := List.dropWhile_sublist _
  have h2 : List.Sublist ((cs.dropWhile isPyWhitespace).reverse.dropWhile isPyWhitespace)
      (cs.dropWhile isPyWhitespace).reverse := List.dropWhile_sublist _
  have h3 : List.Sublist (((cs.dropWhile isPyWhitespace).reverse.dropWhile isPyWhitespace).reverse)
      (cs.dropWhile isPyWhitespace) := by
    have h4 := List.reverse_sublist.mpr h2
    simpa using h4
  exact h3.trans h1

theorem pyStrip_length_le (s : String) : (pyStrip s).length ≤ s.length :=
  (pyStripList_sublist s.toList).length_le

theorem pyStrip_subset (s : String) : ∀ c ∈ (pyStrip s).toList, c ∈ s.toList :=
  fun c hc => (pyStripList_sublist s.toList).subset hc

theorem string_ne_empty_iff (l : List Char) : String.mk l ≠ "" ↔ l ≠ [] := by
  constructor
  · intro h hl
    subst hl
    exact h rfl
  · intro h hl
    apply h
    have h2 : (String.mk l).data = ("" : String).data := by rw [hl]
    exact h2

/-! ### Claim theorems -/

/-- Claim C3: for every birth date `d` and caller clock `today`, validation
rejects `d` when it is after `today`, and otherwise rejects it exactly when
the 365-day integer-division age exceeds 150; a birth date equal to
tomorrow is rejected and a birth date exactly `150 * 365` days before
today is accepted. -/
theorem fecha_nacimiento_validation (today d : Int) :
    (validar_fecha_nacimiento today d =
        .error "La fecha de nacimiento no puede ser futura" ↔ today < d) ∧
    (validar_fecha_nacimiento today d = .error "La fecha de nacimiento no es válida" ↔
        (d ≤ today ∧ 150 < (today - d).fdiv 365)) ∧
    (validar_fecha_nacimiento today d = .ok d ↔
        (d ≤ today ∧ (today - d).fdiv 365 ≤ 150)) ∧
    validar_fecha_nacimiento today (today + 1) =
      .error "La fecha de nacimiento no puede ser futura" ∧
    validar_fecha_nacimiento today (today - 150 * 365) = .ok (today - 150 * 365) := by
  have hmsg : ("La fecha de nacimiento no puede ser futura" : String) ≠
      "La fecha de nacimiento no es válida" := by decide
  refine ⟨?_, ?_, ?_, ?_, ?_⟩
  · by_cases h1 : today < d
    · simp [validar_fecha_nacimiento, h1]
    · by_cases h2 : 150 < (today - d).fdiv 365 <;>
        simp [validar_fecha_nacimiento, h1, h2, hmsg]
  · by_cases h1 : today < d
    · simp [validar_fecha_nacimiento, h1, Ne.symm hmsg]
    · by_cases h2 : 150 < (today - d).fdiv 365 <;>
        simp [validar_fecha_nacimiento, h1, h2] <;> omega
  · by_cases h1 : today < d
    · simp [validar_fecha_nacimiento, h1]
    · by_cases h2 : 150 < (today - d).fdiv 365 <;>
        simp [validar_fecha_nacimiento, h1, h2] <;> omega
  · have h1 : today < today + 1 := by omega
    simp [validar_fecha_nacimiento, h1]
  · have h1 : ¬ today < today - 150 * 365 := by omega
    have h2 : today - (today - 150 * 365) = 150 * 365 := by omega
    have h3 : ¬ 150 < ((150 * 365 : Int)).fdiv 365 := by decide
    simp [validar_fecha_nacimiento, h1, h2, h3]

/-- Concrete instantiation of `fecha_nacimiento_validation` at clock 0:
tomorrow is rejected, the 150-year boundary date is accepted, and a date
older than the boundary is rejected. -/
theorem fecha_nacimiento_validation_witness :
    validar_fecha_nacimiento 0 1 = .error "La fecha de nacimiento no puede ser futura" ∧
    validar_fecha_nacimiento 0 (-(150 * 365)) = .ok (-(150 * 365)) ∧
    validar_fecha_nacimiento 0 (-(151 * 365)) = .error "La fecha de nacimiento no es válida" := by
  refine ⟨?_, ?_, ?_⟩
  · exact (fecha_nacimiento_validation 0 1).1.mpr (by decide)
  · have h := (fecha_nacimiento_validation 0 (-(150 * 365))).2.2.1
    exact h.mpr (by decide)
  · have h := (fecha_nacimiento_validation 0 (-(151 * 365))).2.1
    exact h.mpr (by decide)

/-- Claim C7: absent or blank marital status normalizes to absent; a
present value is trimmed and title-cased and accepted exactly when the
result is one of the nine allowed values; any other value is rejected with
the full allowed list in the error message; "soltero" normalizes to
"Soltero" and is accepted, and "Comprometido" is rejected with the list in
the message. -/
theorem estado_civil_validation (s : String) :
    validar_estado_civil none = .ok none ∧
    (pyStrip s = "" → validar_estado_civil (some s) = .ok none) ∧
    (∀ t, validar_estado_civil (some s) = .ok (some t) ↔
        (pyStrip s ≠ "" ∧ t = pyTitle (pyStrip s) ∧ t ∈ estados_validos)) ∧
    (pyStrip s ≠ "" → pyTitle (pyStrip s) ∉ estados_validos →
        validar_estado_civil (some s) =
          .error ("Estado civil inválido. Opciones válidas: " ++
                  String.intercalate ", " estados_validos)) ∧
    validar_estado_civil (some "soltero") = .ok (some "Soltero") ∧
    validar_estado_civil (some "Comprometido") =
      .error ("Estado civil inválido. Opciones válidas: " ++
              "Soltero, Soltera, Casado, Casada, Divorciado, Divorciada, " ++
              "Viudo, Viuda, Unión Libre") := by
  refine ⟨rfl, ?_, ?_, ?_, by rfl, by rfl⟩
  · intro h
    simp [validar_estado_civil, h]
  · intro t
    by_cases h0 : pyStrip s = ""
    · simp [validar_estado_civil, h0]
    · by_cases h1 : pyTitle (pyStrip s) ∈ estados_validos
      · simp only [validar_estado_civil, h0, if_false, if_neg h0, if_pos h1,
          Except.ok.injEq, Option.some.injEq]
        constructor
        · intro ht
          exact ⟨h0, ht.symm, ht ▸ h1⟩
        · rintro ⟨h2, rfl, h3⟩
          rfl
      · simp only [validar_estado_civil, h0, if_neg h0, if_neg h1]
        constructor
        · intro ht
          cases ht
        · rintro ⟨h2, rfl, h3⟩
          exact absurd h3 h1
  · intro h0 h1
    simp [validar_estado_civil, h0, h1]

/-- Concrete instantiation of `estado_civil_validation`: a lowercase
"soltero" is accepted as "Soltero", which is a member of the allowed list
after trim and title-case. -/
theorem estado_civil_validation_witness :
    ((pyStrip "soltero" : String) ≠ "" ∧
      ("Soltero" : String) = pyTitle (pyStrip "soltero") ∧
      ("Soltero" : String) ∈ estados_validos) ∧
    validar_estado_civil (some "") = .ok none :=
  ⟨((estado_civil_validation "soltero").2.2.1 "Soltero").mp rfl,
   (estado_civil_validation "").2.1 rfl⟩

theorem phoneDigits_iff (ds : List Char) :
    phoneDigits ds = true ↔ ((∀ c ∈ ds, c.isDigit) ∧ 7 ≤ ds.length ∧ ds.length ≤ 15) := by
  simp [phoneDigits, List.all_eq_true, and_assoc]

theorem phoneMatch_iff (cs : List Char) : phoneMatch cs = true ↔ PhoneShape cs := by
  unfold phoneMatch
  split
  · rename_i rest
    rw [phoneDigits_iff]
    constructor
    · rintro ⟨hall, h7, h15⟩
      exact Or.inr ⟨rest, rfl, hall, h7, h15⟩
    · rintro (⟨hall, h7, h15⟩ | ⟨ds, hds, hall, h7, h15⟩)
      · exact absurd (hall '+' (List.mem_cons_self _ _)) (by decide)
      · cases hds
        exact ⟨hall, h7, h15⟩
  · rename_i cs2 hne
    rw [phoneDigits_iff]
    constructor
    · rintro ⟨hall, h7, h15⟩
      exact Or.inl ⟨hall, h7, h15⟩
    · rintro (⟨hall, h7, h15⟩ | ⟨ds, hds, hall, h7, h15⟩)
      · exact ⟨hall, h7, h15⟩
      · exact absurd hds (by intro h; exact hne _ h)

/-- Claim C6 fails as stated: the input " 123-456-7890 " is accepted, but
the stored value is the whitespace-trimmed string "123-456-7890", not the
original (non-stripped) input. -/
theorem telefono_stores_trimmed_counterexample :
    validar_telefono (some " 123-456-7890 ") = .ok (some "123-456-7890") ∧
    ("123-456-7890" : String) ≠ " 123-456-7890 " := by
  exact ⟨rfl, by decide⟩

/-- Claim C6 (amended): blank or absent phone input normalizes to absent;
otherwise the input is first trimmed of leading and trailing whitespace,
the trimmed value is cleaned of whitespace, hyphens and parentheses for
validation only, the remainder must be 7 to 15 digits with an optional
leading plus sign, and the TRIMMED original string (interior separators
preserved) is what gets stored; "123-456-7890" is accepted and stored
verbatim, and "123" is rejected. -/
theorem telefono_validation_amended (u : String) :
    validar_telefono none = .ok none ∧
    (pyStrip u = "" → validar_telefono (some u) = .ok none) ∧
    (pyStrip u ≠ "" →
      ((validar_telefono (some u) = .ok (some (pyStrip u))) ↔
        PhoneShape ((pyStrip u).toList.filter (fun c => !(phoneStripChar c)))) ∧
      (¬ PhoneShape ((pyStrip u).toList.filter (fun c => !(phoneStripChar c))) →
        validar_telefono (some u) =
          .error "Formato de teléfono inválido. Debe contener entre 7 y 15 dígitos") ∧
      (∀ t, validar_telefono (some u) = .ok (some t) → t = pyStrip u)) ∧
    validar_telefono (some "123-456-7890") = .ok (some "123-456-7890") ∧
    validar_telefono (some "123") =
      .error "Formato de teléfono inválido. Debe contener entre 7 y 15 dígitos" := by
  refine ⟨rfl, ?_, ?_, by rfl, by rfl⟩
  · intro h
    simp [validar_telefono, h]
  · intro h0
    by_cases h1 : phoneMatch ((pyStrip u).toList.filter (fun c => !(phoneStripChar c))) = true
    · have h1d : phoneMatch ((pyStrip u).data.filter (fun c => !(phoneStripChar c))) = true := h1
      refine ⟨?_, ?_, ?_⟩
      · rw [← phoneMatch_iff]
        simp [validar_telefono, h0, h1, h1d]
      · intro hshape
        exact absurd (phoneMatch_iff _ |>.mp h1) hshape
      · intro t ht
        simp [validar_telefono, h0, h1, h1d] at ht
        exact ht.symm
    · have hshape : ¬ PhoneShape ((pyStrip u).toList.filter (fun c => !(phoneStripChar c))) :=
        fun hs => h1 ((phoneMatch_iff _).mpr hs)
      have h1f : phoneMatch ((pyStrip u).toList.filter (fun c => !(phoneStripChar c))) = false := by
        revert h1
        cases phoneMatch ((pyStrip u).toList.filter (fun c => !(phoneStripChar c))) <;> simp
      have h1d : phoneMatch ((pyStrip u).data.filter (fun c => !(phoneStripChar c))) = false := h1f
      refine ⟨?_, ?_, ?_⟩
      · constructor
        · intro hok
          simp [validar_telefono, h0, h1f, h1d] at hok
        · intro hs
          exact absurd hs hshape
      · intro _
        simp [validar_telefono, h0, h1f, h1d]
      · intro t ht
        simp [validar_telefono, h0, h1f, h1d] at ht

/-- Concrete instantiation of `telefono_validation_amended`: the blank
input and the accepted and rejected concrete inputs of the claim. -/
theorem telefono_validation_amended_witness :
    validar_telefono (some "   ") = .ok none ∧
    validar_telefono (some "123-456-7890") = .ok (some "123-456-7890") :=
  ⟨(telefono_validation_amended "   ").2.1 rfl,
   (telefono_validation_amended "123-456-7890").2.2.2.1⟩

/-- Claim C8 fails as stated: the name "ab\tcd" contains a tab, which is
neither a letter nor a space, yet it is accepted (the regex class includes
all whitespace, not just the space character). -/
theorem nombre_accepts_tab_counterexample :
    validar_nombre_apellido "ab\tcd" = .ok "Ab\tCd" ∧
    '\t' ∈ ("ab\tcd" : String).toList ∧ letraEs '\t' = false ∧ '\t' ≠ ' ' :=
  ⟨rfl, by decide, by decide, by decide⟩

/-- Claim C8 (amended): empty or whitespace-only name input is rejected;
after trimming, the length must be 2 to 100 and every character must be a
letter (including Spanish accented vowels and the letters enye and u with
diaeresis) or a whitespace character (the regex uses the whitespace class,
so tabs and newlines inside the name are also accepted, not only spaces);
the accepted output is the trimmed, title-cased string, so
"  josé pérez  " normalizes to "José Pérez". -/
theorem nombre_validation_amended (s : String) :
    (pyStrip s = "" → validar_nombre_apellido s = .error "El campo no puede estar vacío") ∧
    (∀ t, validar_nombre_apellido s = .ok t ↔
        (2 ≤ (pyStrip s).length ∧ (pyStrip s).length ≤ 100 ∧
         (∀ c ∈ (pyStrip s).toList, letraEs c ∨ isPyWhitespace c) ∧
         t = pyTitle (pyStrip s))) ∧
    validar_nombre_apellido "  josé pérez  " = .ok "José Pérez" := by
  refine ⟨?_, ?_, by rfl⟩
  · intro h
    simp [validar_nombre_apellido, h]
  · intro t
    by_cases h0 : pyStrip s = ""
    · have hlen0 : (pyStrip s).length = 0 := by rw [h0]; rfl
      have herr : validar_nombre_apellido s = .error "El campo no puede estar vacío" := by
        simp [validar_nombre_apellido, h0]
      rw [herr]
      constructor
      · intro ht; cases ht
      · rintro ⟨hg, -, -, -⟩; omega
    · by_cases h1 : (pyStrip s).length < 2
      · have herr : validar_nombre_apellido s = .error "Debe tener al menos 2 caracteres" := by
          simp [validar_nombre_apellido, h0, h1]
        rw [herr]
        constructor
        · intro ht; cases ht
        · rintro ⟨hg, -, -, -⟩; omega
      · by_cases h2 : (pyStrip s).length > 100
        · have herr : validar_nombre_apellido s = .error "No puede exceder 100 caracteres" := by
            simp [validar_nombre_apellido, h0, h1, h2]
          rw [herr]
          constructor
          · intro ht; cases ht
          · rintro ⟨-, hg, -, -⟩; omega
        · by_cases h3 : (pyStrip s).toList.all nombreChar = true
          · have h3d : (pyStrip s).data.all nombreChar = true := h3
            have hchars : ∀ c ∈ (pyStrip s).toList, letraEs c ∨ isPyWhitespace c := by
              intro c hc
              have hcc := (List.all_eq_true.mp h3) c hc
              simpa [nombreChar] using hcc
            have hok : validar_nombre_apellido s = .ok (pyTitle (pyStrip s)) := by
              simp [validar_nombre_apellido, h0, h1, h2, h3, h3d]
            rw [hok]
            constructor
            · intro ht
              injection ht with ht
              exact ⟨by omega, by omega, hchars, ht.symm⟩
            · rintro ⟨-, -, -, rfl⟩
              rfl
          · have h3f : (pyStrip s).toList.all nombreChar = false := by
              revert h3
              cases (pyStrip s).toList.all nombreChar <;> simp
            have h3d : (pyStrip s).data.all nombreChar = false := h3f
            have herr : validar_nombre_apellido s = .error "Solo se permiten letras y espacios" := by
              simp [validar_nombre_apellido, h0, h1, h2, h3f, h3d]
            rw [herr]
            constructor
            · intro ht; cases ht
            · rintro ⟨-, -, hchars, rfl⟩
              apply absurd ?_ h3
              rw [List.all_eq_true]
              intro c hc
              rcases hchars c hc with h | h
              · simp [nombreChar, h]
              · simp [nombreChar, h]

/-- Concrete instantiation of `nombre_validation_amended`: the blank input
is rejected and "  josé pérez  " normalizes to "José Pérez". -/
theorem nombre_validation_amended_witness :
    validar_nombre_apellido "   " = .error "El campo no puede estar vacío" ∧
    validar_nombre_apellido "  josé pérez  " = .ok "José Pérez" :=
  ⟨(nombre_validation_amended "   ").1 rfl,
   (nombre_validation_amended "x").2.2⟩

/-- Claim C10: the occupation validator imposes no minimum content: any
non-blank string of at most 100 characters drawn only from letters, spaces,
periods and hyphens is accepted, even with no letter at all; in particular
"." and "-" are valid occupations, stored title-cased (unchanged). -/
theorem ocupacion_no_minimum_content (s : String)
    (hne : pyStrip s ≠ "")
    (hlen : s.length ≤ 100)
    (hchars : ∀ c ∈ s.toList, letraEs c ∨ c = ' ' ∨ c = '.' ∨ c = '-') :
    validar_ocupacion (some s) = .ok (some (pyTitle (pyStrip s))) ∧
    validar_ocupacion (some ".") = .ok (some ".") ∧
    validar_ocupacion (some "-") = .ok (some "-") := by
  refine ⟨?_, by rfl, by rfl⟩
  have hlen2 : ¬ ((pyStrip s).length > 100) := by
    have hle := pyStrip_length_le s
    omega
  have hall : (pyStrip s).toList.all ocupacionChar = true := by
    rw [List.all_eq_true]
    intro c hc
    rcases hchars c (pyStrip_subset s c hc) with h | h | h | h
    · simp [ocupacionChar, h]
    · subst h; decide
    · subst h; decide
    · subst h; decide
  have halld : (pyStrip s).data.all ocupacionChar = true := hall
  simp [validar_ocupacion, hne, hlen2, hall, halld]

/-- Concrete instantiation of `ocupacion_no_minimum_content` at the input
".", a string with no letter at all. -/
theorem ocupacion_no_minimum_content_witness :
    validar_ocupacion (some ".") = .ok (some (pyTitle (pyStrip "."))) ∧
    validar_ocupacion (some ".") = .ok (some ".") ∧
    validar_ocupacion (some "-") = .ok (some "-") :=
  ocupacion_no_minimum_content "." (by decide) (by decide) (by decide)

theorem takeWhile_middle {p : Char → Bool} {l₁ : List Char} {x : Char} (l₂ : List Char)
    (h : ∀ a ∈ l₁, p a = true) (hx : p x = false) :
    (l₁ ++ x :: l₂).takeWhile p = l₁ ∧ (l₁ ++ x :: l₂).dropWhile p = x :: l₂ := by
  induction l₁ with
  | nil => simp [List.takeWhile_cons, List.dropWhile_cons, hx]
  | cons a t ih =>
    have ha : p a = true := h a (List.mem_cons_self _ _)
    have ht : ∀ b ∈ t, p b = true := fun b hb => h b (List.mem_cons_of_mem _ hb)
    obtain ⟨ih1, ih2⟩ := ih ht
    simp [List.takeWhile_cons, List.dropWhile_cons, ha, ih1, ih2]

theorem emailAtomChar_beq_at (x : Char) (hx : emailAtomChar x = true) :
    (x == '@') = false := by
  simp only [emailAtomChar, Bool.not_eq_eq_eq_not, Bool.not_true, Bool.or_eq_false_iff] at hx
  exact hx.1

theorem emailMatch_iff (s : String) : emailMatch s = true ↔ EmailShape s := by
  unfold emailMatch
  dsimp only
  split
  · rename_i dom heq
    constructor
    · intro h
      obtain ⟨⟨⟨hne, hloc⟩, hdom⟩, hcont⟩ := by
        simpa only [Bool.and_eq_true] using h
      set T := s.toList.takeWhile (fun c => !(c == '@')) with hTdef
      have hsl : s.toList = T ++ '@' :: dom := by
        conv_lhs => rw [← List.takeWhile_append_dropWhile (fun c => !(c == '@')) s.toList]
        rw [heq]
      have hT : T ≠ [] := by
        simpa using hne
      have hdomAll : ∀ x ∈ dom, emailAtomChar x := List.all_eq_true.mp hdom
      have hmem : '.' ∈ (dom.drop 1).dropLast := by
        simpa [List.elem_iff] using hcont
      cases dom with
      | nil => simp at hmem
      | cons d0 dt =>
        simp only [List.drop_succ_cons, List.drop_zero] at hmem
        rcases List.eq_nil_or_concat dt with hdt | ⟨dl, z, hdt⟩
        · rw [hdt] at hmem
          simp at hmem
        · rw [List.concat_eq_append] at hdt
          rw [hdt, List.dropLast_concat] at hmem
          obtain ⟨u, w, huw⟩ := List.append_of_mem hmem
          have hdteq : dt = u ++ '.' :: (w ++ [z]) := by
            rw [hdt, huw]
            simp
          refine ⟨T, d0 :: u, w ++ [z], ?_, hT, by simp, by simp, ?_, ?_, ?_⟩
          · rw [hsl, hdteq]
            simp
          · exact List.all_eq_true.mp hloc
          · intro x hxm
            apply hdomAll
            rcases List.mem_cons.mp hxm with h1 | h1
            · rw [h1]
              exact List.mem_cons_self _ _
            · apply List.mem_cons_of_mem
              rw [hdteq]
              exact List.mem_append.mpr (Or.inl h1)
          · intro x hxm
            apply hdomAll
            apply List.mem_cons_of_mem
            rw [hdteq]
            exact List.mem_append.mpr (Or.inr (List.mem_cons_of_mem _ hxm))
    · rintro ⟨a, b, c, hsl, ha, hb, hc, haa, hba, hca⟩
      have hpa : ∀ x ∈ a, (fun c => !(c == '@')) x = true := by
        intro x hxa
        simp only [Bool.not_eq_eq_eq_not, Bool.not_true]
        exact emailAtomChar_beq_at x (haa x hxa)
      have hpat : (fun c => !(c == '@')) '@' = false := by simp
      obtain ⟨htw, hdw⟩ := takeWhile_middle (b ++ '.' :: c) hpa hpat
      rw [hsl] at heq
      rw [hdw] at heq
      have hdomeq : dom = b ++ '.' :: c := by
        injection heq with h1 h2
        exact h2.symm
      have hTa : (a ++ '@' :: (b ++ '.' :: c)).takeWhile (fun cc => !(cc == '@')) = a := htw
      rw [hsl, hTa, hdomeq]
      simp only [Bool.and_eq_true]
      refine ⟨⟨⟨by simpa using ha, List.all_eq_true.mpr haa⟩, ?_⟩, ?_⟩
      · rw [List.all_eq_true]
        intro x hxm
        rcases List.mem_append.mp hxm with h1 | h1
        · exact hba x h1
        · rcases List.mem_cons.mp h1 with h2 | h2
          · rw [h2]; decide
          · exact hca x h2
      · cases b with
        | nil => exact absurd rfl hb
        | cons b0 bt =>
          simp only [List.cons_append, List.drop_succ_cons, List.drop_zero]
          have hceq := List.dropLast_concat_getLast hc
          rw [← hceq]
          have hsplit : bt ++ '.' :: (c.dropLast ++ [c.getLast hc]) =
              (bt ++ '.' :: c.dropLast) ++ [c.getLast hc] := by
            simp
          rw [hsplit, List.dropLast_concat]
          simp [List.elem_iff]
  · rename_i hne2
    constructor
    · intro h
      cases h
    · rintro ⟨a, b, c, hsl, ha, hb, hc, haa, hba, hca⟩
      have hpa : ∀ x ∈ a, (fun cc => !(cc == '@')) x = true := by
        intro x hxa
        simp only [Bool.not_eq_eq_eq_not, Bool.not_true]
        exact emailAtomChar_beq_at x (haa x hxa)
      have hpat : (fun cc => !(cc == '@')) '@' = false := by simp
      obtain ⟨htw, hdw⟩ := takeWhile_middle (b ++ '.' :: c) hpa hpat
      rw [hsl] at hne2
      rw [hdw] at hne2
      exact (hne2 (b ++ '.' :: c) rfl).elim

/-- Claim C2 (spec-modelled): email validation rejects empty input and any
string longer than 150 characters, and accepts a string exactly when it
matches the shape: one or more non-at non-whitespace characters, an at
sign, one or more such characters, a dot, one or more such characters; the
accepted value is returned unchanged. -/
theorem email_validation (s : String) :
    validar_email "" = .error "El email es obligatorio" ∧
    (150 < s.length → ∃ m, validar_email s = .error m) ∧
    (validar_email s = .ok s ↔ (s ≠ "" ∧ s.length ≤ 150 ∧ EmailShape s)) ∧
    (∀ t, validar_email s = .ok t → t = s) := by
  refine ⟨rfl, ?_, ?_, ?_⟩
  · intro h
    by_cases h0 : s = ""
    · subst h0
      exact absurd h (by decide)
    · have h1 : s.length > 150 := h
      refine ⟨"El email no puede exceder 150 caracteres", ?_⟩
      simp [validar_email, h0, h1]
  · constructor
    · intro hok
      by_cases h0 : s = ""
      · subst h0
        simp [validar_email] at hok
      · by_cases h1 : s.length > 150
        · simp [validar_email, h0, h1] at hok
        · by_cases h2 : emailMatch s = true
          · exact ⟨h0, by omega, (emailMatch_iff s).mp h2⟩
          · have h2f : emailMatch s = false := by
              revert h2
              cases emailMatch s <;> simp
            simp [validar_email, h0, h1, h2f] at hok
    · rintro ⟨h0, h1, hshape⟩
      have h2 : emailMatch s = true := (emailMatch_iff s).mpr hshape
      have h1n : ¬ (s.length > 150) := by omega
      simp [validar_email, h0, h1n, h2]
  · intro t ht
    by_cases h0 : s = ""
    · subst h0
      simp [validar_email] at ht
    · by_cases h1 : s.length > 150
      · simp [validar_email, h0, h1] at ht
      · by_cases h2 : emailMatch s = true
        · simp [validar_email, h0, h1, h2] at ht
          exact ht.symm
        · have h2f : emailMatch s = false := by
            revert h2
            cases emailMatch s <;> simp
          simp [validar_email, h0, h1, h2f] at ht

/-- Concrete instantiation of `email_validation`: the accepted address
"a@b.c" is nonempty, within the length bound, and has the loose shape. -/
theorem email_validation_witness :
    (("a@b.c" : String) ≠ "" ∧ ("a@b.c" : String).length ≤ 150 ∧ EmailShape "a@b.c") ∧
    validar_email "" = .error "El email es obligatorio" :=
  ⟨(email_validation "a@b.c").2.2.1.mp rfl, (email_validation "a@b.c").1⟩

theorem errList_mem {α : Type} (name n m : String) (e : Except String α) :
    (n, m) ∈ errList name e ↔ (n = name ∧ e = .error m) := by
  cases e with
  | error msg =>
    simp [errList, Prod.ext_iff]
    intro
    constructor
    · intro h; exact h.symm
    · intro h; exact h.symm
  | ok x => simp [errList]

theorem erroresResidente_mem (today : Int) (r : ResidenteFields) (n m : String) :
    (n, m) ∈ erroresResidente today r ↔ fieldRejects today r n m := by
  simp only [erroresResidente, List.mem_append, errList_mem, fieldRejects, or_assoc]

theorem errList_eq_nil {α : Type} {name : String} {e : Except String α}
    (h : errList name e = []) : ∃ x, e = .ok x := by
  cases e with
  | error msg => simp [errList] at h
  | ok x => exact ⟨x, rfl⟩

theorem erroresResidente_ne_nil (today : Int) (r : ResidenteFields)
    (h : validarTodos today r = none) : erroresResidente today r ≠ [] := by
  intro hnil
  simp only [erroresResidente, List.append_eq_nil] at hnil
  obtain ⟨⟨⟨⟨⟨⟨⟨⟨h1, h2⟩, h3⟩, h4⟩, h5⟩, h6⟩, h7⟩, h8⟩, h9⟩ := hnil
  obtain ⟨n, hn⟩ := errList_eq_nil h1
  obtain ⟨a, ha⟩ := errList_eq_nil h2
  obtain ⟨f, hf⟩ := errList_eq_nil h3
  obtain ⟨p, hp⟩ := errList_eq_nil h4
  obtain ⟨e, he⟩ := errList_eq_nil h5
  obtain ⟨t, ht⟩ := errList_eq_nil h6
  obtain ⟨d, hd⟩ := errList_eq_nil h7
  obtain ⟨o, ho⟩ := errList_eq_nil h8
  obtain ⟨c, hc⟩ := errList_eq_nil h9
  rw [validarTodos] at h
  simp [hn, ha, hf, hp, he, ht, hd, ho, hc, Except.toOption] at h

/-- Claim C4: on create and on update, when whole-record validation fails
the handler leaves the stored state unchanged (no repository operation is
performed) and returns a 422 response carrying a non-empty list of
field-and-message pairs that enumerates exactly the invalid fields. -/
theorem validation_failure_no_storage (today : Int) (form : ResidenteFields)
    (db : DBState) (rid : Nat) (lastrowid : Option Nat)
    (errs : List (String × String))
    (h : validarResidente today (applyFormOpt form) = .error errs) :
    post_nuevo_residente today form lastrowid db = (Response.formWithErrors 422 errs, db) ∧
    post_editar_residente today rid form db = (Response.formWithErrors 422 errs, db) ∧
    errs ≠ [] ∧
    (∀ name msg, ((name, msg) ∈ errs ↔ fieldRejects today (applyFormOpt form) name msg)) := by
  have hnone : validarTodos today (applyFormOpt form) = none := by
    by_contra hcon
    obtain ⟨v, hv⟩ := Option.ne_none_iff_exists'.mp hcon
    unfold validarResidente at h
    rw [hv] at h
    cases h
  have herrs : errs = erroresResidente today (applyFormOpt form) := by
    unfold validarResidente at h
    rw [hnone] at h
    injection h with h1
    exact h1.symm
  refine ⟨?_, ?_, ?_, ?_⟩
  · simp [post_nuevo_residente, h]
  · simp [post_editar_residente, h]
  · rw [herrs]
    exact erroresResidente_ne_nil _ _ hnone
  · intro name msg
    rw [herrs]
    exact erroresResidente_mem _ _ _ _

/-- Concrete instantiation of `validation_failure_no_storage`: a form whose
first name is the single letter "a" fails validation with exactly the
nombre error, and both handlers leave a one-row table unchanged. -/
theorem validation_failure_no_storage_witness :
    post_nuevo_residente 100 formInvalido (some 2) ⟨2, [⟨1, ejemploForm⟩]⟩ =
      (Response.formWithErrors 422 [("nombre", "Debe tener al menos 2 caracteres")],
       ⟨2, [⟨1, ejemploForm⟩]⟩) ∧
    post_editar_residente 100 1 formInvalido ⟨2, [⟨1, ejemploForm⟩]⟩ =
      (Response.formWithErrors 422 [("nombre", "Debe tener al menos 2 caracteres")],
       ⟨2, [⟨1, ejemploForm⟩]⟩) ∧
    [("nombre", "Debe tener al menos 2 caracteres")] ≠
      ([] : List (String × String)) ∧
    (∀ name msg, ((name, msg) ∈ [("nombre", "Debe tener al menos 2 caracteres")] ↔
        fieldRejects 100 (applyFormOpt formInvalido) name msg)) :=
  validation_failure_no_storage 100 formInvalido ⟨2, [⟨1, ejemploForm⟩]⟩ 1 (some 2)
    [("nombre", "Debe tener al menos 2 caracteres")] rfl

/-- Claim C1: for a record that passed whole-record validation, inserting
the Validator's normalized output into a table whose next auto-increment id
is fresh and nonzero, and then fetching the returned id, yields a row whose
non-id fields equal the Validator's output. -/
theorem insert_then_get_roundtrip (today : Int) (raw v : ResidenteFields) (db : DBState)
    (hval : validarResidente today raw = .ok v)
    (hfresh : ∀ r ∈ db.rows, r.id ≠ db.nextId)
    (hnz : db.nextId ≠ 0) :
    ∃ row : Row,
      fetch_residente_by_id (insert_residente db (some db.nextId) v).2
        (insert_residente db (some db.nextId) v).1 = some row ∧
      row.fields = v := by
  refine ⟨⟨db.nextId, v⟩, ?_, rfl⟩
  have hret : (insert_residente db (some db.nextId) v).1 = db.nextId := by
    simp [insert_residente, hnz]
  have hrows : (insert_residente db (some db.nextId) v).2.rows =
      db.rows ++ [⟨db.nextId, v⟩] := rfl
  rw [fetch_residente_by_id, hret, hrows, List.find?_append]
  have hskip : db.rows.find? (fun r => r.id == db.nextId) = none := by
    rw [List.find?_eq_none]
    intro r hr
    simp [hfresh r hr]
  rw [hskip]
  simp

/-- Concrete instantiation of `insert_then_get_roundtrip`: inserting the
valid example payload into an empty table with next id 1 and fetching the
returned id recovers the payload. -/
theorem insert_then_get_roundtrip_witness :
    ∃ row : Row,
      fetch_residente_by_id (insert_residente ⟨1, []⟩ (some 1) ejemploForm).2
        (insert_residente ⟨1, []⟩ (some 1) ejemploForm).1 = some row ∧
      row.fields = ejemploForm :=
  insert_then_get_roundtrip 100 ejemploForm ejemploForm ⟨1, []⟩ rfl
    (by intro r hr; cases hr) (by decide)

/-- Claim C5: for an id matching no row, `delete_residente` returns false
and leaves the table unchanged, and `update_residente` with a fully valid
record returns false, creates no row and leaves the table unchanged;
both return normally rather than raising a storage fault. -/
theorem delete_update_missing_id (today : Int) (raw v : ResidenteFields)
    (db : DBState) (rid : Nat)
    (hval : validarResidente today raw = .ok v)
    (hmiss : ∀ r ∈ db.rows, r.id ≠ rid) :
    delete_residente db rid = (false, db) ∧
    update_residente db rid v = (false, db) := by
  have hfilter : db.rows.filter (fun r => r.id == rid) = [] := by
    rw [List.filter_eq_nil_iff]
    intro r hr
    simp [hmiss r hr]
  constructor
  · have hkeep : db.rows.filter (fun r => !(r.id == rid)) = db.rows := by
      rw [List.filter_eq_self]
      intro r hr
      simp [hmiss r hr]
    simp [delete_residente, hfilter, hkeep]
  · have hmap : db.rows.map (fun r => if r.id == rid then (⟨r.id, v⟩ : Row) else r) =
        db.rows := by
      have hcongr : ∀ r ∈ db.rows,
          (if r.id == rid then (⟨r.id, v⟩ : Row) else r) = (fun a => a) r := by
        intro r hr
        simp [hmiss r hr]
      rw [List.map_congr_left hcongr, List.map_id']
    have hmapp : db.rows.map (fun r => if r.id = rid then (⟨r.id, v⟩ : Row) else r) =
        db.rows := by
      have hcongr : ∀ r ∈ db.rows,
          (if r.id = rid then (⟨r.id, v⟩ : Row) else r) = (fun a => a) r := by
        intro r hr
        simp [hmiss r hr]
      rw [List.map_congr_left hcongr, List.map_id']
    simp [update_residente, hfilter, hmap, hmapp]

/-- Concrete instantiation of `delete_update_missing_id`: id 5 matches no
row of a one-row table; delete and update both return false and leave the
table as it was. -/
theorem delete_update_missing_id_witness :
    delete_residente ⟨2, [⟨1, ejemploForm⟩]⟩ 5 = (false, ⟨2, [⟨1, ejemploForm⟩]⟩) ∧
    update_residente ⟨2, [⟨1, ejemploForm⟩]⟩ 5 ejemploForm =
      (false, ⟨2, [⟨1, ejemploForm⟩]⟩) :=
  delete_update_missing_id 100 ejemploForm ejemploForm ⟨2, [⟨1, ejemploForm⟩]⟩ 5 rfl
    (by decide)

/-- Claim C9: `insert_residente` returns the driver-reported last inserted
row id when it is present and nonzero, and 0 otherwise (the Python
`cur.lastrowid or 0`); in particular a call that does append its row can
still return 0, a value storage never assigns, when the driver reports
nothing or reports 0. -/
theorem insert_return_value (db : DBState) (f : ResidenteFields) :
    (∀ n : Nat, n ≠ 0 → (insert_residente db (some n) f).1 = n) ∧
    (insert_residente db none f).1 = 0 ∧
    (insert_residente db (some 0) f).1 = 0 ∧
    (insert_residente db none f).2.rows = db.rows ++ [⟨db.nextId, f⟩] := by
  refine ⟨?_, rfl, rfl, rfl⟩
  intro n hn
  simp [insert_residente, hn]

/-- Concrete instantiation of `insert_return_value`: a faithful driver
report of 7 is returned as 7, and an absent report yields 0 while the row
is still appended. -/
theorem insert_return_value_witness :
    (insert_residente ⟨7, []⟩ (some 7) ejemploForm).1 = 7 ∧
    (insert_residente ⟨7, []⟩ none ejemploForm).1 = 0 ∧
    (insert_residente ⟨7, []⟩ none ejemploForm).2.rows = [⟨7, ejemploForm⟩] :=
  ⟨(insert_return_value ⟨7, []⟩ ejemploForm).1 7 (by decide),
   (insert_return_value ⟨7, []⟩ ejemploForm).2.1,
   (insert_return_value ⟨7, []⟩ ejemploForm).2.2.2⟩

end Embajada
